import Mathlib

/-!
# Verification of the Price Action Strategy Analyzer core

Shallow embedding of `startegy.py` (the Trading_analyzer repository).
Prices are modelled as exact rationals (`ℚ`); the Python floats carry the
same arithmetic expressions, evaluated exactly here.  A pandas DataFrame of
candles becomes a `List Candle` in ascending timestamp order with the
derived per-candle metrics (`body`, `range`, `body_ratio`) computed by
functions rather than stored columns (the preprocessor computes them once
per candle from the same formulas; the values agree).  `NaN` has no
representative in `ℚ`, so `pd.isna` is constantly false in this embedding;
the corresponding branch of `detect_range` is noted where it occurs.
The free-text `reason` side channel of `analyze_data` is not modelled: the
function returns the strategy label, with the control flow of the source
kept intact.
-/

/-- One OHLC candle (the `open` field is `open_` because `open` is a Lean
keyword). -/
structure Candle where
  open_ : ℚ
  high : ℚ
  low : ℚ
  close : ℚ
  deriving DecidableEq, Repr

instance : Inhabited Candle := ⟨⟨0, 0, 0, 0⟩⟩

/-- `df['body'] = abs(df['close'] - df['open'])`. -/
def Candle.body (c : Candle) : ℚ := |c.close - c.open_|

/-- `df['range'] = df['high'] - df['low']`. -/
def Candle.range (c : Candle) : ℚ := c.high - c.low

/-- `df['body_ratio'] = np.where(df['range'] == 0, 0, (df['body'] / df['range']) * 100)`. -/
def Candle.body_ratio (c : Candle) : ℚ :=
  if c.range = 0 then 0 else c.body / c.range * 100

/-- `RANGE_CONFIG` (the shape of the dict; `min_candles` and `min_touches`
are counts, the rest percentages). -/
structure RangeConfig where
  min_candles : ℕ
  min_touches : ℕ
  width_min_pct : ℚ
  width_max_pct : ℚ
  touch_tolerance_pct : ℚ
  midrange_pct : ℚ

/-- The `RANGE_CONFIG` constant of the source. -/
def RANGE_CONFIG : RangeConfig :=
  { min_candles := 15
    min_touches := 2
    width_min_pct := 7/10
    width_max_pct := 3
    touch_tolerance_pct := 1
    midrange_pct := 30 }

/-- `IMPULSE_CONFIG` (the shape of the dict). -/
structure ImpulseConfig where
  min_candles_consecutive : ℕ
  max_candles_total : ℕ
  min_total_pct_change : ℚ
  min_body_pct : ℚ

/-- The `IMPULSE_CONFIG` constant of the source. -/
def IMPULSE_CONFIG : ImpulseConfig :=
  { min_candles_consecutive := 2
    max_candles_total := 3
    min_total_pct_change := 3/2
    min_body_pct := 60 }

def TREND_THRESHOLD_PCT : ℚ := 1/10

def TREND_LOOKBACK : ℕ := 10

/-- `series.max()` over a nonempty pandas series of the listed values; the
`[]` case (where pandas would give `NaN`) is unreachable at every call site
and mapped to `0`. -/
def listMax : List ℚ → ℚ
  | [] => 0
  | x :: xs => xs.foldl max x

/-- `series.min()`, same conventions as `listMax`. -/
def listMin : List ℚ → ℚ
  | [] => 0
  | x :: xs => xs.foldl min x

/-- `check_price_near_extreme(price, range_low, range_high, midrange_pct)`. -/
def check_price_near_extreme (price range_low range_high midrange_pct : ℚ) : Bool :=
  let total_range := range_high - range_low
  if total_range ≤ 0 then false
  else
    let lower_bound := range_low + total_range * ((100 - midrange_pct)/2/100)
    let upper_bound := range_high - total_range * ((100 - midrange_pct)/2/100)
    decide (price < lower_bound) || decide (price > upper_bound)

/-- The record returned by `detect_range` on success. -/
structure RangeWindow where
  high : ℚ
  low : ℚ
  width_pct : ℚ
  start_index : ℕ
  end_index : ℕ
  deriving DecidableEq, Repr

/-- `df.iloc[start_idx : start_idx + min_candles]`: the candidate window of
`detect_range` at a given start offset. -/
def windowAt (cfg : RangeConfig) (df : List Candle) (start_idx : ℕ) : List Candle :=
  (df.drop start_idx).take cfg.min_candles

/-- The body of the `for start_idx in range(...)` loop of `detect_range`:
evaluates one candidate window, `none` meaning the Python `continue` (the
window is skipped and the scan moves on).  `pd.isna(window_high)` is
constantly false over exact rationals, so only the `window_high <= window_low`
disjunct of line 85 remains. -/
def rangeWindowAt (cfg : RangeConfig) (df : List Candle) (start_idx : ℕ) :
    Option RangeWindow :=
  let window := windowAt cfg df start_idx
  let window_high := listMax (window.map Candle.high)
  let window_low := listMin (window.map Candle.low)
  if window_high ≤ window_low then none
  else
    let high_tol := window_high * (cfg.touch_tolerance_pct / 100)
    let low_tol := window_low * (cfg.touch_tolerance_pct / 100)
    let high_touches := window.filter (fun c => window_high - high_tol ≤ c.high)
    let low_touches := window.filter (fun c => c.low ≤ window_low + low_tol)
    if cfg.min_touches ≤ high_touches.length ∧ cfg.min_touches ≤ low_touches.length then
      let width := window_high - window_low
      let midpoint := (window_high + window_low) / 2
      if midpoint = 0 then none
      else
        let width_pct := width / midpoint * 100
        if cfg.width_min_pct ≤ width_pct ∧ width_pct ≤ cfg.width_max_pct then
          let last_close := (window.getLastD default).close
          let upper_bound := window_high * (1 + cfg.touch_tolerance_pct/100)
          let lower_bound := window_low * (1 - cfg.touch_tolerance_pct/100)
          if lower_bound ≤ last_close ∧ last_close ≤ upper_bound then
            some { high := window_high
                   low := window_low
                   width_pct := width_pct
                   start_index := start_idx
                   end_index := start_idx + cfg.min_candles - 1 }
          else none
        else none
    else none

/-- The loop `for start_idx in range(len(df) - min_candles, -1, -1)`:
evaluate the window at `start_idx`, return it on success, otherwise walk
backward; `scanFrom cfg df n` runs the loop from `start_idx = n` down to 0. -/
def scanFrom (cfg : RangeConfig) (df : List Candle) : ℕ → Option RangeWindow
  | 0 => rangeWindowAt cfg df 0
  | n + 1 =>
    match rangeWindowAt cfg df (n + 1) with
    | some w => some w
    | none => scanFrom cfg df n

/-- `detect_range(df)`: `None` is "no range found". -/
def detect_range (cfg : RangeConfig) (df : List Candle) : Option RangeWindow :=
  if df.length < cfg.min_candles then none
  else scanFrom cfg df (df.length - cfg.min_candles)

/-- `detect_trend_and_bos(df)`: the trend is `some "uptrend"`,
`some "downtrend"` or `none` (Python `None`), paired with the BoS flag. -/
def detect_trend_and_bos (df : List Candle) : Option String × Bool :=
  if df.length < TREND_LOOKBACK + 1 then (none, false)
  else
    let lookback_data := (df.drop (df.length - (TREND_LOOKBACK + 1))).take TREND_LOOKBACK
    let recent_data := df.drop (df.length - TREND_LOOKBACK)
    let price_change := (recent_data.getLastD default).close - (lookback_data.headD default).close
    let price_change_pct := price_change / (lookback_data.headD default).close * 100
    let trend : Option String :=
      if price_change_pct > TREND_THRESHOLD_PCT then some "uptrend"
      else if price_change_pct < -TREND_THRESHOLD_PCT then some "downtrend"
      else none
    let bos : Bool :=
      if trend = some "uptrend" then
        decide ((df.getLastD default).high > listMax (lookback_data.map Candle.high))
      else if trend = some "downtrend" then
        decide ((df.getLastD default).low < listMin (lookback_data.map Candle.low))
      else false
    (trend, bos)

/-- `df.iloc[-num_candles:]`: the trailing window checked by one iteration
of `check_recent_impulse`. -/
def subsetAt (df : List Candle) (num_candles : ℕ) : List Candle :=
  df.drop (df.length - num_candles)

/-- The body of the `for num_candles in range(...)` loop of
`check_recent_impulse`: `false` means the Python `continue` with this
length (skip and try the next length). -/
def impulseAt (cfg : ImpulseConfig) (df : List Candle) (num_candles : ℕ) : Bool :=
  if df.length < num_candles then false
  else
    let subset := subsetAt df num_candles
    let start_price := (subset.headD default).open_
    let end_price := (subset.getLastD default).close
    if start_price = 0 then false
    else
      let pct_change := |(end_price - start_price) / start_price| * 100
      if pct_change < cfg.min_total_pct_change then false
      else
        let body_ratios := subset.map Candle.body_ratio
        if body_ratios.sum / (body_ratios.length : ℚ) < cfg.min_body_pct then false
        else
          let direction : ℚ :=
            if end_price > start_price then 1
            else if end_price < start_price then -1 else 0
          subset.all (fun candle => decide ((candle.close - candle.open_) * direction ≥ 0))

/-- The loop `for num_candles in range(min_candles_consecutive,
max_candles_total + 1)`: try `fuel` consecutive lengths starting at
`num_candles`, returning `true` on the first qualifying one. -/
def impulse_scan (cfg : ImpulseConfig) (df : List Candle) : ℕ → ℕ → Bool
  | _, 0 => false
  | num_candles, fuel + 1 =>
    impulseAt cfg df num_candles || impulse_scan cfg df (num_candles + 1) fuel

/-- `check_recent_impulse(df)`. -/
def check_recent_impulse (cfg : ImpulseConfig) (df : List Candle) : Bool :=
  impulse_scan cfg df cfg.min_candles_consecutive
    (cfg.max_candles_total + 1 - cfg.min_candles_consecutive)

/-- `df['close'].iloc[-1]`. -/
def lastClose (df : List Candle) : ℚ := (df.getLastD default).close

/-- Step 2 and step 3 of `analyze_data` (the code after the Limit Catch
block, reached on every path that does not return inside it). -/
def in_price_step (df : List Candle) : String :=
  let tb := detect_trend_and_bos df
  let current_impulse := check_recent_impulse IMPULSE_CONFIG df
  if tb.1.isSome && tb.2 && !current_impulse then "In-Price Entry"
  else "No Entry"

/-- `analyze_data(df)`, returning the strategy label (the free-text
`reason` channel is not modelled).  On the empty series pandas would raise
at `df['close'].iloc[-1]`; `lastClose` maps that unreachable case (the
endpoint guarantees at least 15 candles) to the default candle. -/
def analyze_data (df : List Candle) : String :=
  match detect_range RANGE_CONFIG df with
  | some detected_range =>
    if check_price_near_extreme (lastClose df) detected_range.low detected_range.high
        RANGE_CONFIG.midrange_pct then
      if check_recent_impulse IMPULSE_CONFIG (df.take detected_range.start_index) then
        in_price_step df
      else "Limit Catch Entry"
    else in_price_step df
  | none => in_price_step df

/-! ## Concrete series used by the witnesses -/

/-- A flat candle at price 100. -/
def flat100 : Candle := ⟨100, 100, 100, 100⟩

/-- 15 candles forming a 99–101 range (two resistance touches, two support
touches, width 2%), last close 100.9 in the upper entry band, closes
drifting up 0.9% over the trend lookback with the final high breaking the
prior structural high, and no 2–3 candle impulse. -/
def demoSeries : List Candle :=
  [⟨100, 101, 100, 100⟩, ⟨100, 100, 99, 100⟩, ⟨100, 100, 99, 100⟩, ⟨100, 101, 100, 100⟩,
   flat100, flat100, flat100, flat100, flat100, flat100, flat100, flat100, flat100, flat100,
   ⟨100, 101, 100, 1009/10⟩]

/-- The range window `detect_range` finds in `demoSeries`. -/
def wdemo : RangeWindow :=
  { high := 101, low := 99, width_pct := 2, start_index := 0, end_index := 14 }

/-- `demoSeries` with one flat candle prepended: both start offsets 0 and 1
carry qualifying windows, so the backward scan must stop at offset 1. -/
def series16 : List Candle := flat100 :: demoSeries

/-- The window `detect_range` finds in `series16` (start offset 1). -/
def w16 : RangeWindow :=
  { high := 101, low := 99, width_pct := 2, start_index := 1, end_index := 15 }

/-- Like `demoSeries` but with last close 100.8, just above the 85th
percentile (99 + 0.85·2 = 100.7) of the 99–101 range. -/
def demoSeries85 : List Candle :=
  [⟨100, 101, 100, 100⟩, ⟨100, 100, 99, 100⟩, ⟨100, 100, 99, 100⟩, ⟨100, 101, 100, 100⟩,
   flat100, flat100, flat100, flat100, flat100, flat100, flat100, flat100, flat100, flat100,
   ⟨100, 101, 100, 1008/10⟩]

/-- Like `demoSeries` but with last close 99.1, in the lower entry band. -/
def demoSeriesLow : List Candle :=
  [⟨100, 101, 100, 100⟩, ⟨100, 100, 99, 100⟩, ⟨100, 100, 99, 100⟩, ⟨100, 101, 100, 100⟩,
   flat100, flat100, flat100, flat100, flat100, flat100, flat100, flat100, flat100, flat100,
   ⟨100, 100, 99, 991/10⟩]

/-- Two strong up candles: +4% over two candles, full bodies. -/
def impulseSeries : List Candle := [⟨100, 102, 100, 102⟩, ⟨102, 104, 102, 104⟩]

/-- A structurally invalid candle (`high < low`), tolerated numerically. -/
def invCandle : Candle := ⟨100, 90, 110, 100⟩

/-- 16 copies of `invCandle`: every candidate window has
`window_high ≤ window_low`. -/
def invSeries : List Candle := List.replicate 16 invCandle

/-- Two all-zero candles: the impulse start price is `0`. -/
def zeroSeries : List Candle := [⟨0, 0, 0, 0⟩, ⟨0, 0, 0, 0⟩]

/-! ## Evaluation lemmas for the concrete series -/

set_option maxRecDepth 10000 in
theorem demo_detect : detect_range RANGE_CONFIG demoSeries = some wdemo := by
  norm_num [detect_range, scanFrom, rangeWindowAt, windowAt, RANGE_CONFIG, demoSeries, flat100,
    listMax, listMin, max_def, min_def, List.filter, wdemo]

set_option maxRecDepth 10000 in
theorem demo_impulse : check_recent_impulse IMPULSE_CONFIG demoSeries = false := by
  norm_num [check_recent_impulse, impulse_scan, impulseAt, subsetAt, IMPULSE_CONFIG, demoSeries,
    flat100, Candle.body_ratio, Candle.body, Candle.range, abs_of_pos, abs_of_nonneg]

theorem impulse_nil : check_recent_impulse IMPULSE_CONFIG [] = false := by
  norm_num [check_recent_impulse, impulse_scan, impulseAt, subsetAt, IMPULSE_CONFIG]

set_option maxRecDepth 10000 in
theorem demo_zone : check_price_near_extreme (lastClose demoSeries) 99 101
    RANGE_CONFIG.midrange_pct = true := by
  norm_num [check_price_near_extreme, lastClose, demoSeries, flat100, RANGE_CONFIG]

set_option maxRecDepth 10000 in
theorem demo_trend : detect_trend_and_bos demoSeries = (some "uptrend", true) := by
  norm_num [detect_trend_and_bos, TREND_LOOKBACK, TREND_THRESHOLD_PCT, demoSeries, flat100,
    listMax, listMin, max_def, min_def]

set_option maxRecDepth 10000 in
theorem s16_window1 : rangeWindowAt RANGE_CONFIG series16 1 = some w16 := by
  norm_num [rangeWindowAt, windowAt, RANGE_CONFIG, series16, demoSeries, flat100,
    listMax, listMin, max_def, min_def, List.filter, w16]

set_option maxRecDepth 10000 in
theorem demo85_detect : detect_range RANGE_CONFIG demoSeries85 = some wdemo := by
  norm_num [detect_range, scanFrom, rangeWindowAt, windowAt, RANGE_CONFIG, demoSeries85, flat100,
    listMax, listMin, max_def, min_def, List.filter, wdemo]

theorem demo85_band : lastClose demoSeries85 > wdemo.low + (wdemo.high - wdemo.low) * (85/100) := by
  norm_num [lastClose, demoSeries85, wdemo]

set_option maxRecDepth 10000 in
theorem demoLow_detect : detect_range RANGE_CONFIG demoSeriesLow = some wdemo := by
  norm_num [detect_range, scanFrom, rangeWindowAt, windowAt, RANGE_CONFIG, demoSeriesLow, flat100,
    listMax, listMin, max_def, min_def, List.filter, wdemo]

set_option maxRecDepth 10000 in
theorem demoLow_zone : check_price_near_extreme (lastClose demoSeriesLow) 99 101
    RANGE_CONFIG.midrange_pct = true := by
  norm_num [check_price_near_extreme, lastClose, demoSeriesLow, flat100, RANGE_CONFIG]

/-- A configuration strictly above the defaults in both thresholds. -/
def strictConfig : ImpulseConfig :=
  { min_candles_consecutive := 2
    max_candles_total := 3
    min_total_pct_change := 2
    min_body_pct := 70 }

set_option maxRecDepth 10000 in
theorem impulse_strict : check_recent_impulse strictConfig impulseSeries = true := by
  norm_num [check_recent_impulse, impulse_scan, impulseAt, subsetAt, strictConfig, impulseSeries,
    Candle.body_ratio, Candle.body, Candle.range, abs_of_pos, abs_of_nonneg]

set_option maxRecDepth 10000 in
theorem inv_window_le : listMax ((windowAt RANGE_CONFIG invSeries 1).map Candle.high) ≤
    listMin ((windowAt RANGE_CONFIG invSeries 1).map Candle.low) := by
  norm_num [windowAt, RANGE_CONFIG, invSeries, invCandle, List.replicate, listMax, listMin,
    max_def, min_def]

/-! ## Structural lemmas about the detectors -/

/-- Any window `rangeWindowAt` accepts passed the width filter, carries the
`width_pct` computed from its own `high`/`low`, and has `low < high`. -/
theorem rangeWindowAt_spec (cfg : RangeConfig) (df : List Candle) (i : ℕ) (w : RangeWindow)
    (h : rangeWindowAt cfg df i = some w) :
    cfg.width_min_pct ≤ w.width_pct ∧ w.width_pct ≤ cfg.width_max_pct ∧
    w.width_pct = (w.high - w.low) / ((w.high + w.low) / 2) * 100 ∧ w.low < w.high := by
  simp only [rangeWindowAt] at h
  split_ifs at h with h1 h2 h3 h4 h5
  injection h with h'
  subst h'
  exact ⟨h4.1, h4.2, rfl, lt_of_not_le h1⟩

/-- Every window the backward scan returns comes from some start offset it
examined. -/
theorem scanFrom_some (cfg : RangeConfig) (df : List Candle) :
    ∀ n w, scanFrom cfg df n = some w → ∃ i, i ≤ n ∧ rangeWindowAt cfg df i = some w := by
  intro n
  induction n with
  | zero => exact fun w h => ⟨0, le_refl 0, h⟩
  | succ n ih =>
    intro w h
    simp only [scanFrom] at h
    cases hr : rangeWindowAt cfg df (n + 1) with
    | some w' => rw [hr] at h; cases h; exact ⟨n + 1, le_refl _, hr⟩
    | none =>
      rw [hr] at h
      obtain ⟨i, hi, hw⟩ := ih w h
      exact ⟨i, Nat.le_succ_of_le hi, hw⟩

/-- Every window `detect_range` returns comes from a valid start offset. -/
theorem detect_range_some (cfg : RangeConfig) (df : List Candle) (w : RangeWindow)
    (h : detect_range cfg df = some w) :
    ∃ i, i ≤ df.length - cfg.min_candles ∧ rangeWindowAt cfg df i = some w := by
  unfold detect_range at h
  split_ifs at h
  exact scanFrom_some cfg df _ w h

/-- The backward scan returns the qualifying offset closest to the end of
the series: if offset `i` qualifies and every later examined offset is
skipped, the scan from any `n ≥ i` yields offset `i`'s window. -/
theorem scanFrom_first (cfg : RangeConfig) (df : List Candle) :
    ∀ n i w, i ≤ n → rangeWindowAt cfg df i = some w →
    (∀ j, i < j → j ≤ n → rangeWindowAt cfg df j = none) → scanFrom cfg df n = some w := by
  intro n
  induction n with
  | zero =>
    intro i w hi hw _
    obtain rfl : i = 0 := Nat.le_zero.mp hi
    exact hw
  | succ n ih =>
    intro i w hi hw hnone
    by_cases hc : i = n + 1
    · subst hc; simp only [scanFrom, hw]
    · have hi' : i ≤ n := Nat.lt_succ_iff.mp (lt_of_le_of_ne hi hc)
      have hn : rangeWindowAt cfg df (n + 1) = none :=
        hnone (n + 1) (Nat.lt_succ_of_le hi') (le_refl _)
      simp only [scanFrom, hn]
      exact ih i w hi' hw fun j h1 h2 => hnone j h1 (Nat.le_succ_of_le h2)

/-- Step 2/3 of the Decision Engine never produces the Limit Catch label. -/
theorem in_price_step_ne (df : List Candle) : in_price_step df ≠ "Limit Catch Entry" := by
  simp only [in_price_step]
  split_ifs <;> decide

/-- A trailing-window length exceeding the series length is skipped. -/
theorem impulseAt_short (cfg : ImpulseConfig) (df : List Candle) (n : ℕ)
    (h : df.length < n) : impulseAt cfg df n = false := by
  unfold impulseAt
  rw [if_pos h]

/-- If even the first tried length exceeds the series length, the whole
impulse loop reports `false`. -/
theorem impulse_scan_short (cfg : ImpulseConfig) (df : List Candle) :
    ∀ fuel n, df.length < n → impulse_scan cfg df n fuel = false := by
  intro fuel
  induction fuel with
  | zero => intro n _; rfl
  | succ fuel ih =>
    intro n h
    simp only [impulse_scan, impulseAt_short cfg df n h, Bool.false_or]
    exact ih (n + 1) (Nat.lt_succ_of_lt h)

/-- One impulse length that qualifies under higher thresholds also
qualifies under lower ones. -/
theorem impulseAt_mono (cfg cfg' : ImpulseConfig) (df : List Candle) (n : ℕ)
    (hpct : cfg.min_total_pct_change ≤ cfg'.min_total_pct_change)
    (hbody : cfg.min_body_pct ≤ cfg'.min_body_pct)
    (h : impulseAt cfg' df n = true) : impulseAt cfg df n = true := by
  simp only [impulseAt] at h ⊢
  split_ifs at h ⊢ <;>
    first
      | rfl
      | exact h
      | exact absurd h Bool.false_ne_true
      | (exfalso; linarith)

/-- `impulseAt_mono` lifted over the length loop. -/
theorem impulse_scan_mono (cfg cfg' : ImpulseConfig) (df : List Candle)
    (hpct : cfg.min_total_pct_change ≤ cfg'.min_total_pct_change)
    (hbody : cfg.min_body_pct ≤ cfg'.min_body_pct) :
    ∀ fuel n, impulse_scan cfg' df n fuel = true → impulse_scan cfg df n fuel = true := by
  intro fuel
  induction fuel with
  | zero => intro n h; exact h
  | succ fuel ih =>
    intro n h
    simp only [impulse_scan, Bool.or_eq_true] at h ⊢
    rcases h with h | h
    · exact Or.inl (impulseAt_mono cfg cfg' df n hpct hbody h)
    · exact Or.inr (ih (n + 1) h)

/-! ## The claims -/

/-- Claim C1: Decision Engine priority.  For every candle series on which
both the Limit Catch conditions hold (a range is detected, the latest close
lies in the entry zone, no impulse in the sub-series before the range's
start index) and the In-Price conditions hold (trend non-none,
break-of-structure true, no current impulse), `analyze_data` returns the
label "Limit Catch Entry": step 1 short-circuits step 2. -/
theorem analyze_data_limit_catch_priority (df : List Candle) (w : RangeWindow)
    (hr : detect_range RANGE_CONFIG df = some w)
    (hz : check_price_near_extreme (lastClose df) w.low w.high RANGE_CONFIG.midrange_pct = true)
    (hpre : check_recent_impulse IMPULSE_CONFIG (df.take w.start_index) = false)
    (_htrend : (detect_trend_and_bos df).1.isSome = true)
    (_hbos : (detect_trend_and_bos df).2 = true)
    (_himp : check_recent_impulse IMPULSE_CONFIG df = false) :
    analyze_data df = "Limit Catch Entry" := by
  unfold analyze_data
  rw [hr]
  simp [hz, hpre]

theorem analyze_data_limit_catch_priority_witness :
    analyze_data demoSeries = "Limit Catch Entry" := by
  exact analyze_data_limit_catch_priority demoSeries wdemo demo_detect demo_zone impulse_nil
    (by rw [demo_trend]; rfl) (by rw [demo_trend]) demo_impulse

/-- Claim C2: entry-zone membership.  For a range with low `L`, high `H`
and positive width `w = H - L`, the latest close `c` is in the entry zone
exactly when `c < L + w*((100 - midrange_pct)/2)/100` or
`c > H - w*((100 - midrange_pct)/2)/100`; in particular, with midrange 30%,
a last close above the 85th percentile band of a detected range (with no
pre-range impulse) yields "Limit Catch Entry". -/
theorem check_price_near_extreme_zone :
    (∀ price L H mid : ℚ, 0 < H - L →
      (check_price_near_extreme price L H mid = true ↔
        price < L + (H - L) * ((100 - mid) / 2) / 100 ∨
        price > H - (H - L) * ((100 - mid) / 2) / 100)) ∧
    (∀ df w, detect_range RANGE_CONFIG df = some w →
      lastClose df > w.low + (w.high - w.low) * (85 / 100) →
      check_recent_impulse IMPULSE_CONFIG (df.take w.start_index) = false →
      analyze_data df = "Limit Catch Entry") := by
  constructor
  · intro price L H mid hpos
    unfold check_price_near_extreme
    rw [if_neg (not_le.mpr hpos)]
    have e : (H - L) * ((100 - mid) / 2 / 100) = (H - L) * ((100 - mid) / 2) / 100 :=
      (mul_div_assoc _ _ _).symm
    simp only [e, Bool.or_eq_true, decide_eq_true_eq]
  · intro df w hr h85 hpre
    obtain ⟨i, _, hw⟩ := detect_range_some RANGE_CONFIG df w hr
    have hlw : w.low < w.high := (rangeWindowAt_spec RANGE_CONFIG df i w hw).2.2.2
    have hz : check_price_near_extreme (lastClose df) w.low w.high
        RANGE_CONFIG.midrange_pct = true := by
      unfold check_price_near_extreme
      rw [if_neg (not_le.mpr (by linarith))]
      simp only [Bool.or_eq_true, decide_eq_true_eq, RANGE_CONFIG]
      right
      nlinarith
    unfold analyze_data
    rw [hr]
    simp [hz, hpre]

theorem check_price_near_extreme_zone_witness :
    ((0:ℚ) < 101 - 99 ∧ check_price_near_extreme (1008/10) 99 101 30 = true) ∧
    analyze_data demoSeries85 = "Limit Catch Entry" := by
  constructor
  · refine ⟨by norm_num, (check_price_near_extreme_zone.1 (1008/10) 99 101 30 (by norm_num)).mpr ?_⟩
    right
    norm_num
  · exact check_price_near_extreme_zone.2 demoSeries85 wdemo demo85_detect demo85_band impulse_nil

/-- Claim C3: Range Detector postcondition.  Whenever `detect_range`
returns a window, its `width_pct = (high-low)/((high+low)/2)*100` lies
within `[width_min_pct, width_max_pct]` (defaults 0.7 to 3.0, carried by
`RANGE_CONFIG`). -/
theorem detect_range_width_pct (cfg : RangeConfig) (df : List Candle) (w : RangeWindow)
    (h : detect_range cfg df = some w) :
    cfg.width_min_pct ≤ w.width_pct ∧ w.width_pct ≤ cfg.width_max_pct ∧
    w.width_pct = (w.high - w.low) / ((w.high + w.low) / 2) * 100 := by
  obtain ⟨i, _, hw⟩ := detect_range_some cfg df w h
  obtain ⟨h1, h2, h3, _⟩ := rangeWindowAt_spec cfg df i w hw
  exact ⟨h1, h2, h3⟩

theorem detect_range_width_pct_witness :
    RANGE_CONFIG.width_min_pct ≤ wdemo.width_pct ∧
    wdemo.width_pct ≤ RANGE_CONFIG.width_max_pct ∧
    wdemo.width_pct = (wdemo.high - wdemo.low) / ((wdemo.high + wdemo.low) / 2) * 100 :=
  detect_range_width_pct RANGE_CONFIG demoSeries wdemo demo_detect

/-- Claim C4: Range Detector scan order.  `detect_range` examines
candidate windows of fixed length `min_candles` walking backward from the
window ending at the most recent candle, and returns the first window in
that backward order satisfying the qualifying conditions: if offset `i`
qualifies and every more recent offset is skipped, offset `i`'s window is
the result, and the window examined at `i` has exactly `min_candles`
candles. -/
theorem detect_range_backward_scan (cfg : RangeConfig) (df : List Candle) (i : ℕ)
    (w : RangeWindow) (hlen : cfg.min_candles ≤ df.length)
    (hi : i ≤ df.length - cfg.min_candles)
    (hw : rangeWindowAt cfg df i = some w)
    (hafter : ∀ j, i < j → j ≤ df.length - cfg.min_candles → rangeWindowAt cfg df j = none) :
    detect_range cfg df = some w ∧ (windowAt cfg df i).length = cfg.min_candles := by
  constructor
  · unfold detect_range
    rw [if_neg (not_lt.mpr hlen)]
    exact scanFrom_first cfg df _ i w hi hw hafter
  · simp only [windowAt, List.length_take, List.length_drop]
    omega

theorem detect_range_backward_scan_witness :
    detect_range RANGE_CONFIG series16 = some w16 ∧
    (windowAt RANGE_CONFIG series16 1).length = RANGE_CONFIG.min_candles :=
  detect_range_backward_scan RANGE_CONFIG series16 1 w16 (by decide) (by decide) s16_window1
    (fun j h1 h2 => absurd (h1.trans_le h2) (lt_irrefl 1))

/-- Claim C5: for every series with fewer than `min_candles` (default 15)
candles, `detect_range` returns "no range found" (`none`), and
consequently `analyze_data` on such a series never returns the label
"Limit Catch Entry". -/
theorem detect_range_short_none (df : List Candle)
    (h : df.length < RANGE_CONFIG.min_candles) :
    detect_range RANGE_CONFIG df = none ∧ analyze_data df ≠ "Limit Catch Entry" := by
  have hr : detect_range RANGE_CONFIG df = none := by
    unfold detect_range
    rw [if_pos h]
  refine ⟨hr, ?_⟩
  unfold analyze_data
  rw [hr]
  exact in_price_step_ne df

theorem detect_range_short_none_witness :
    detect_range RANGE_CONFIG [flat100] = none ∧
    analyze_data [flat100] ≠ "Limit Catch Entry" :=
  detect_range_short_none [flat100] (by decide)

/-- Claim C6: for every series shorter than `lookback + 1` (default 11)
candles the Trend/BoS Detector returns `(none, false)`; moreover, for any
series, whenever the classified trend is none, break-of-structure is
false. -/
theorem detect_trend_and_bos_none :
    (∀ df : List Candle, df.length < TREND_LOOKBACK + 1 →
      detect_trend_and_bos df = (none, false)) ∧
    (∀ df : List Candle, (detect_trend_and_bos df).1 = none →
      (detect_trend_and_bos df).2 = false) := by
  constructor
  · intro df h
    unfold detect_trend_and_bos
    rw [if_pos h]
  · intro df h
    simp only [detect_trend_and_bos] at h ⊢
    split_ifs at h ⊢ <;> simp_all

theorem detect_trend_and_bos_none_witness :
    detect_trend_and_bos [flat100] = (none, false) ∧
    (detect_trend_and_bos [flat100]).2 = false := by
  have h1 := detect_trend_and_bos_none.1 [flat100] (by decide)
  exact ⟨h1, detect_trend_and_bos_none.2 [flat100] (by rw [h1])⟩

/-- Claim C7: Impulse Detector monotonicity in thresholds.  For a fixed
series and two configurations sharing the candle-count parameters, if the
detector reports true under the configuration with the higher (or equal)
`min_total_pct_change` and `min_body_pct` thresholds, it also reports true
under the laxer one. -/
theorem check_recent_impulse_mono (df : List Candle) (cfg cfg' : ImpulseConfig)
    (hmin : cfg'.min_candles_consecutive = cfg.min_candles_consecutive)
    (hmax : cfg'.max_candles_total = cfg.max_candles_total)
    (hpct : cfg.min_total_pct_change ≤ cfg'.min_total_pct_change)
    (hbody : cfg.min_body_pct ≤ cfg'.min_body_pct)
    (h : check_recent_impulse cfg' df = true) : check_recent_impulse cfg df = true := by
  unfold check_recent_impulse at h ⊢
  rw [hmin, hmax] at h
  exact impulse_scan_mono cfg cfg' df hpct hbody _ _ h

theorem check_recent_impulse_mono_witness :
    check_recent_impulse strictConfig impulseSeries = true ∧
    check_recent_impulse IMPULSE_CONFIG impulseSeries = true :=
  ⟨impulse_strict,
   check_recent_impulse_mono impulseSeries IMPULSE_CONFIG strictConfig rfl rfl
     (by norm_num [IMPULSE_CONFIG, strictConfig]) (by norm_num [IMPULSE_CONFIG, strictConfig])
     impulse_strict⟩

/-- Claim C8: Preprocessor flat-candle safety.  A candle with
`high - low = 0` gets `body_ratio = 0` (no division error; division is
total here and the zero case is handled by the explicit guard), and a
candle with `high - low ≠ 0` gets
`body_ratio = |close - open| / (high - low) * 100`. -/
theorem body_ratio_flat_safe (c : Candle) :
    (c.high - c.low = 0 → c.body_ratio = 0) ∧
    (c.high - c.low ≠ 0 → c.body_ratio = |c.close - c.open_| / (c.high - c.low) * 100) := by
  unfold Candle.body_ratio Candle.body Candle.range
  constructor
  · intro h
    rw [if_pos h]
  · intro h
    rw [if_neg h]

theorem body_ratio_flat_safe_witness :
    (flat100.body_ratio = 0) ∧
    ((⟨100, 102, 100, 101⟩ : Candle).body_ratio = |(101:ℚ) - 100| / (102 - 100) * 100) :=
  ⟨(body_ratio_flat_safe flat100).1 (by norm_num [flat100]),
   (body_ratio_flat_safe ⟨100, 102, 100, 101⟩).2 (by norm_num)⟩

/-- Claim C9: detector edge cases never raise.  A candidate range window
with `window_high ≤ window_low` is skipped and the backward scan continues
with the next start offset; a candidate impulse length whose starting open
price is 0 is skipped and the next length is tried.  (The `pd.isna`
disjunct of the window check is constantly false over exact rationals,
where `NaN` has no representative; both detectors are total Lean functions
on every series.) -/
theorem detector_edge_cases_skip :
    (∀ (cfg : RangeConfig) (df : List Candle) (i : ℕ),
      listMax ((windowAt cfg df i).map Candle.high) ≤
        listMin ((windowAt cfg df i).map Candle.low) →
      rangeWindowAt cfg df i = none) ∧
    (∀ (cfg : RangeConfig) (df : List Candle) (i : ℕ), 0 < i →
      rangeWindowAt cfg df i = none → scanFrom cfg df i = scanFrom cfg df (i - 1)) ∧
    (∀ (cfg : ImpulseConfig) (df : List Candle) (n : ℕ),
      ((subsetAt df n).headD default).open_ = 0 → impulseAt cfg df n = false) ∧
    (∀ (cfg : ImpulseConfig) (df : List Candle) (n fuel : ℕ),
      impulseAt cfg df n = false →
      impulse_scan cfg df n (fuel + 1) = impulse_scan cfg df (n + 1) fuel) := by
  refine ⟨?_, ?_, ?_, ?_⟩
  · intro cfg df i h
    unfold rangeWindowAt
    rw [if_pos h]
  · intro cfg df i hpos h
    cases i with
    | zero => exact absurd hpos (lt_irrefl 0)
    | succ k => simp only [scanFrom, h, Nat.succ_sub_one]
  · intro cfg df n h
    simp only [impulseAt]
    by_cases h1 : df.length < n
    · rw [if_pos h1]
    · rw [if_neg h1, if_pos h]
  · intro cfg df n fuel h
    simp only [impulse_scan, h, Bool.false_or]

theorem detector_edge_cases_skip_witness :
    rangeWindowAt RANGE_CONFIG invSeries 1 = none ∧
    scanFrom RANGE_CONFIG invSeries 1 = scanFrom RANGE_CONFIG invSeries 0 ∧
    impulseAt IMPULSE_CONFIG zeroSeries 2 = false ∧
    impulse_scan IMPULSE_CONFIG zeroSeries 2 1 = impulse_scan IMPULSE_CONFIG zeroSeries 3 0 := by
  have h1 := detector_edge_cases_skip.1 RANGE_CONFIG invSeries 1 inv_window_le
  have h3 := detector_edge_cases_skip.2.2.1 IMPULSE_CONFIG zeroSeries 2 rfl
  exact ⟨h1, detector_edge_cases_skip.2.1 RANGE_CONFIG invSeries 1 (by norm_num) h1,
    h3, detector_edge_cases_skip.2.2.2 IMPULSE_CONFIG zeroSeries 2 0 h3⟩

/-- Claim C10: `check_recent_impulse` is total on arbitrarily short
series — any series shorter than `min_candles_consecutive` (including the
empty pre-range sub-series arising when the detected range starts at index
0) yields `false` rather than an error; hence a qualifying range starting
at index 0 with the latest close in the entry zone is still classified
"Limit Catch Entry". -/
theorem check_recent_impulse_total_short :
    (∀ (cfg : ImpulseConfig) (df : List Candle),
      df.length < cfg.min_candles_consecutive → check_recent_impulse cfg df = false) ∧
    (∀ (df : List Candle) (w : RangeWindow), detect_range RANGE_CONFIG df = some w →
      w.start_index = 0 →
      check_price_near_extreme (lastClose df) w.low w.high RANGE_CONFIG.midrange_pct = true →
      analyze_data df = "Limit Catch Entry") := by
  constructor
  · intro cfg df h
    unfold check_recent_impulse
    exact impulse_scan_short cfg df _ _ h
  · intro df w hr h0 hz
    have hpre : check_recent_impulse IMPULSE_CONFIG (df.take w.start_index) = false := by
      rw [h0, List.take_zero]
      exact impulse_nil
    unfold analyze_data
    rw [hr]
    simp [hz, hpre]

theorem check_recent_impulse_total_short_witness :
    check_recent_impulse IMPULSE_CONFIG [] = false ∧
    analyze_data demoSeriesLow = "Limit Catch Entry" :=
  ⟨check_recent_impulse_total_short.1 IMPULSE_CONFIG [] (by decide),
   check_recent_impulse_total_short.2 demoSeriesLow wdemo demoLow_detect rfl demoLow_zone⟩
